import Mathlib

/-!
Verification of the carpool booking/fleet-tracking application.

The development shallowly embeds the parts of the repository that the
properties below are about:

* the availability / overlap admission check
  (`booking/views.py`, `user_create_booking` and `api_available_cars`),
* the booking lifecycle actions
  (`booking/views.py`, `user_return_car` with its `start_use` and `return`
  branches, `user_confirm_return`, `user_cancel_booking`),
* the odometer-input parsing of the odometer-accepting operations
  (`user_return_car`, `user_fuel_refill`, `admin_fuel_refill_edit`,
  `admin_booking_edit`),
* the monthly audit engine (`booking/utils/audit.py`, `audit_car_month`).

Dates are modelled as integers (only their total order matters; a concrete
calendar date such as 2025-12-10 is written 20251210, which preserves the
order of dates).  Database rows are Lean structures; the relevant columns of
`booking/models.py` are carried, display-only columns (plates, brands,
colours, text fields, timestamps) are omitted because no operation modelled
here reads them.  A rejected request in the web code returns before any
`save()` call, so persisted state is unchanged; operations are therefore
embedded as functions returning `Option`/plain results where `none` is a
rejection that leaves the store untouched.
-/

/-- Booking status (`Booking.STATUS_CHOICES` in `booking/models.py`). -/
inductive BStatus
  | BOOKED
  | IN_USE
  | RETURNED
  | PENDING_RETURN
  | CANCELLED
deriving DecidableEq, Repr

/-- Car status (`Car.STATUS_CHOICES` in `booking/models.py`). -/
inductive CarStatus
  | READY
  | MAINTENANCE
  | OUT_OF_SERVICE
  | RETIRED
deriving DecidableEq, Repr

/-- A row of the `Car` table (`booking/models.py`).  `current_odometer` is
the resting odometer (IntegerField, default 0). -/
structure Car where
  id : Nat
  current_odometer : Int
  status : CarStatus
deriving DecidableEq, Repr

/-- A row of the `Booking` table (`booking/models.py`).  `car` is a non-null
foreign key (`on_delete=PROTECT`), carried here as the car id.
`odometer_before` / `odometer_after` are nullable integer columns;
`returned_by` is a nullable user reference carried as a user id. -/
structure Booking where
  id : Nat
  carId : Nat
  start_date : Int
  end_date : Int
  odometer_before : Option Int
  odometer_after : Option Int
  status : BStatus
  returned_by : Option Nat
deriving DecidableEq, Repr

/-- A row of the `FuelRefill` table (`booking/models.py`).  `booking` is a
nullable foreign key (`on_delete=SET_NULL`); `yp_number` is a CharField that
does exist on this model (unlike on `Booking`).  The money columns
(`liters`, `total_price`, `price_per_liter`) are omitted: no property below
reads them. -/
structure FuelRefill where
  id : Nat
  carId : Nat
  bookingId : Option Nat
  refill_date : Int
  odometer : Int
  yp_number : String
deriving DecidableEq, Repr

/-- The persistent store the embedded operations read. -/
structure DB where
  bookings : List Booking
  fuels : List FuelRefill
deriving Repr

/-! ## Overlap / availability check

`user_create_booking` (views.py:378-382):

    Booking.objects.filter(car=car, status__in=["BOOKED", "IN_USE"])
           .filter(start_date__lte=end, end_date__gte=start).exists()

`api_available_cars` (views.py:315-320) computes the same overlap filter
without the per-car restriction and collects the distinct busy car ids. -/

/-- One booking blocks the range `[s, e]` on car `v`: it is on that car, its
status is BOOKED or IN_USE, and `start_date <= e` and `end_date >= s`. -/
def blocksRange (v : Nat) (s e : Int) (b : Booking) : Bool :=
  b.carId == v && (b.status == BStatus.BOOKED || b.status == BStatus.IN_USE)
    && decide (b.start_date ≤ e) && decide (s ≤ b.end_date)

/-- The admission check of `user_create_booking`: does any existing booking
on car `v` with active status overlap `[s, e]`? -/
def hasConflict (bookings : List Booking) (v : Nat) (s e : Int) : Bool :=
  bookings.any (blocksRange v s e)

/-- A booking is active (BOOKED or IN_USE) and overlaps `[s, e]` — the
car-independent filter of `api_available_cars`. -/
def activeOverlap (s e : Int) (b : Booking) : Bool :=
  (b.status == BStatus.BOOKED || b.status == BStatus.IN_USE)
    && decide (b.start_date ≤ e) && decide (s ≤ b.end_date)

/-- The distinct busy car ids of `api_available_cars` (views.py:315-320). -/
def busyCarIds (bookings : List Booking) (s e : Int) : List Nat :=
  ((bookings.filter (activeOverlap s e)).map (fun b => b.carId)).dedup

/-! ## Monthly audit engine (`booking/utils/audit.py`, `audit_car_month`)

The function builds a list of issue dicts.  Each dict carries `type`,
`car_id`, `booking_id`, `fuel_id`, `date_range` and a human-readable
`message`.  The `message` f-strings for every booking-related issue
interpolate `b.yp_number` where `b` is a `Booking` — but the `Booking`
model defines no `yp_number` field (only `FuelRefill` does), so evaluating
any of those f-strings raises `AttributeError` at runtime.  The faithful
embedding `audit_car_month` therefore runs in `Except String` and performs
the attribute access (`bookingYpNumber`) exactly where the source formats a
message from a booking.  `auditIssuesIntended` is the same issue-record
logic with the (crashing) message formatting elided; it states what the
engine was written to emit. -/

/-- The issue types emitted by `audit_car_month`. -/
inductive IssueType
  | missing_before
  | missing_after
  | reversed_odometer
  | gap_negative
  | gap_between_trips
  | fuel_odometer_outside_trip
  | fuel_without_booking
deriving DecidableEq, Repr

/-- The structured part of an issue dict: `type`, `car_id`, `booking_id`,
`fuel_id`.  The `date_range` and `message` display strings are not carried
(the theorems below account for the message formatting separately, because
it is what crashes). -/
structure Issue where
  type : IssueType
  car_id : Nat
  booking_id : Option Nat
  fuel_id : Option Nat
deriving DecidableEq, Repr

/-- Python attribute access `b.yp_number` on a `Booking` instance.  The
`Booking` model (`booking/models.py`) defines no `yp_number` field, so the
access raises `AttributeError`. -/
def bookingYpNumber (_b : Booking) : Except String String :=
  Except.error "AttributeError: Booking has no field yp_number"

/-- The `order_by("start_date", "id")` comparison for bookings. -/
def tripOrder (a b : Booking) : Bool :=
  decide (a.start_date < b.start_date)
    || (decide (a.start_date = b.start_date) && decide (a.id ≤ b.id))

/-- The `order_by("refill_date", "id")` comparison for fuel refills. -/
def fuelOrder (a b : FuelRefill) : Bool :=
  decide (a.refill_date < b.refill_date)
    || (decide (a.refill_date = b.refill_date) && decide (a.id ≤ b.id))

/-- Embeds `Booking.objects.filter(car=car, start_date__lte=end, end_date__gte=start)
.order_by("start_date", "id")`: the trips overlapping the audited range. -/
def monthTrips (db : DB) (carId : Nat) (s e : Int) : List Booking :=
  List.insertionSort (fun a b => tripOrder a b = true)
    (db.bookings.filter (fun b =>
      b.carId == carId && decide (b.start_date ≤ e) && decide (s ≤ b.end_date)))

/-- Embeds `FuelRefill.objects.filter(car=car, refill_date__range=(start, end))
.order_by("refill_date", "id")`: the refills dated within the range. -/
def monthFuels (db : DB) (carId : Nat) (s e : Int) : List FuelRefill :=
  List.insertionSort (fun a b => fuelOrder a b = true)
    (db.fuels.filter (fun f =>
      f.carId == carId && decide (s ≤ f.refill_date) && decide (f.refill_date ≤ e)))

/-- Step 1 of `audit_car_month` for one trip: `missing_before`,
`missing_after`, `reversed_odometer`.  Every message formats
`b.yp_number`, hence the `bookingYpNumber` access before each append. -/
def tripIssues (carId : Nat) (b : Booking) : Except String (List Issue) := do
  let i1 ← (if b.odometer_before = none then do
      let _ ← bookingYpNumber b
      pure [{ type := IssueType.missing_before, car_id := carId,
              booking_id := some b.id, fuel_id := none }]
    else pure [])
  let i2 ← (if b.odometer_after = none then do
      let _ ← bookingYpNumber b
      pure [{ type := IssueType.missing_after, car_id := carId,
              booking_id := some b.id, fuel_id := none }]
    else pure [])
  let i3 ← (match b.odometer_before, b.odometer_after with
    | some bef, some aft =>
      if aft < bef then do
        let _ ← bookingYpNumber b
        pure [{ type := IssueType.reversed_odometer, car_id := carId,
                booking_id := some b.id, fuel_id := none }]
      else pure []
    | _, _ => pure ([] : List Issue))
  pure (i1 ++ i2 ++ i3)

/-- Step 2 of `audit_car_month` for one adjacent pair `(a, b)` of the
ordered trip list: `gap = b.odometer_before - a.odometer_after`;
`gap_negative` when `gap < 0`, else `gap_between_trips` when
`gap > gap_threshold_km`.  Both messages format `a.yp_number` and
`b.yp_number`. -/
def gapPairIssues (carId : Nat) (thr : Int) (a b : Booking) :
    Except String (List Issue) :=
  match a.odometer_after, b.odometer_before with
  | some aft, some bef =>
    let gap := bef - aft
    if gap < 0 then do
      let _ ← bookingYpNumber a
      let _ ← bookingYpNumber b
      pure [{ type := IssueType.gap_negative, car_id := carId,
              booking_id := some b.id, fuel_id := none }]
    else if gap > thr then do
      let _ ← bookingYpNumber a
      let _ ← bookingYpNumber b
      pure [{ type := IssueType.gap_between_trips, car_id := carId,
              booking_id := some b.id, fuel_id := none }]
    else pure []
  | _, _ => pure []

/-- Step 2 over the whole ordered trip list (`for i in range(len(trips)-1)`). -/
def gapIssues (carId : Nat) (thr : Int) : List Booking → Except String (List Issue)
  | a :: b :: rest => do
    let xs ← gapPairIssues carId thr a b
    let ys ← gapIssues carId thr (b :: rest)
    pure (xs ++ ys)
  | _ => pure []

/-- Step 3 of `audit_car_month` for one refill: with an attached booking,
`fuel_odometer_outside_trip` when the refill odometer is below
`odometer_before` and, independently, when it is above `odometer_after`
(each message formats `bk.yp_number`); with no attached booking,
`fuel_without_booking` (whose message uses `f.yp_number`, a field
`FuelRefill` does have). -/
def fuelIssues (carId : Nat) (bookings : List Booking) (f : FuelRefill) :
    Except String (List Issue) :=
  match f.bookingId with
  | some bid =>
    match bookings.find? (fun b => b.id == bid) with
    | some bk => do
      let i1 ← (match bk.odometer_before with
        | some bef =>
          if f.odometer < bef then do
            let _ ← bookingYpNumber bk
            pure [{ type := IssueType.fuel_odometer_outside_trip, car_id := carId,
                    booking_id := some bk.id, fuel_id := some f.id }]
          else pure []
        | none => pure ([] : List Issue))
      let i2 ← (match bk.odometer_after with
        | some aft =>
          if f.odometer > aft then do
            let _ ← bookingYpNumber bk
            pure [{ type := IssueType.fuel_odometer_outside_trip, car_id := carId,
                    booking_id := some bk.id, fuel_id := some f.id }]
          else pure []
        | none => pure ([] : List Issue))
      pure (i1 ++ i2)
    | none => pure []
  | none =>
    pure [{ type := IssueType.fuel_without_booking, car_id := carId,
            booking_id := none, fuel_id := some f.id }]

/-- Sequence a per-row issue producer over a row list, concatenating in
order (the Python loops append into one `issues` list). -/
def collectIssues (g : α → Except String (List Issue)) :
    List α → Except String (List Issue)
  | [] => pure []
  | x :: rest => do
    let xs ← g x
    let ys ← collectIssues g rest
    pure (xs ++ ys)

/-- Faithful embedding of `audit_car_month(car, start, end, gap_threshold_km)`
(`booking/utils/audit.py:15-148`), message formatting included as the
attribute accesses it performs.  The call sites pass
`gap_threshold_km = 200` (the declared default). -/
def audit_car_month (db : DB) (carId : Nat) (s e thr : Int) :
    Except String (List Issue) := do
  let trips := monthTrips db carId s e
  let fuels := monthFuels db carId s e
  let a ← collectIssues (tripIssues carId) trips
  let g ← gapIssues carId thr trips
  let f ← collectIssues (fuelIssues carId db.bookings) fuels
  pure (a ++ g ++ f)

/-! Intended issue-record logic: the same checks with the message
formatting (the only crashing part) elided. -/

/-- Mirrors `tripIssues` without message formatting. -/
def tripIssuesIntended (carId : Nat) (b : Booking) : List Issue :=
  (if b.odometer_before = none then
    [{ type := IssueType.missing_before, car_id := carId,
       booking_id := some b.id, fuel_id := none }]
  else [])
  ++ (if b.odometer_after = none then
    [{ type := IssueType.missing_after, car_id := carId,
       booking_id := some b.id, fuel_id := none }]
  else [])
  ++ (match b.odometer_before, b.odometer_after with
    | some bef, some aft =>
      if aft < bef then
        [{ type := IssueType.reversed_odometer, car_id := carId,
           booking_id := some b.id, fuel_id := none }]
      else []
    | _, _ => [])

/-- Mirrors `gapPairIssues` without message formatting. -/
def gapPairIssuesIntended (carId : Nat) (thr : Int) (a b : Booking) : List Issue :=
  match a.odometer_after, b.odometer_before with
  | some aft, some bef =>
    let gap := bef - aft
    if gap < 0 then
      [{ type := IssueType.gap_negative, car_id := carId,
         booking_id := some b.id, fuel_id := none }]
    else if gap > thr then
      [{ type := IssueType.gap_between_trips, car_id := carId,
         booking_id := some b.id, fuel_id := none }]
    else []
  | _, _ => []

/-- Mirrors `gapIssues` without message formatting. -/
def gapIssuesIntended (carId : Nat) (thr : Int) : List Booking → List Issue
  | a :: b :: rest =>
    gapPairIssuesIntended carId thr a b ++ gapIssuesIntended carId thr (b :: rest)
  | _ => []

/-- Mirrors `fuelIssues` without message formatting. -/
def fuelIssuesIntended (carId : Nat) (bookings : List Booking) (f : FuelRefill) :
    List Issue :=
  match f.bookingId with
  | some bid =>
    match bookings.find? (fun b => b.id == bid) with
    | some bk =>
      (match bk.odometer_before with
        | some bef =>
          if f.odometer < bef then
            [{ type := IssueType.fuel_odometer_outside_trip, car_id := carId,
               booking_id := some bk.id, fuel_id := some f.id }]
          else []
        | none => [])
      ++ (match bk.odometer_after with
        | some aft =>
          if f.odometer > aft then
            [{ type := IssueType.fuel_odometer_outside_trip, car_id := carId,
               booking_id := some bk.id, fuel_id := some f.id }]
          else []
        | none => [])
    | none => []
  | none =>
    [{ type := IssueType.fuel_without_booking, car_id := carId,
       booking_id := none, fuel_id := some f.id }]

/-- Mirrors `audit_car_month` without message formatting: the issue records the
engine was written to emit. -/
def auditIssuesIntended (db : DB) (carId : Nat) (s e thr : Int) : List Issue :=
  let trips := monthTrips db carId s e
  let fuels := monthFuels db carId s e
  (trips.flatMap (tripIssuesIntended carId)) ++ gapIssuesIntended carId thr trips
    ++ fuels.flatMap (fuelIssuesIntended carId db.bookings)

/-! ## Booking lifecycle (`booking/views.py`)

Raw text inputs that Python feeds to `int(...)` are modelled as
`RawInput`: `empty` is a missing or empty value (falsy; `int` raises
`TypeError`/`ValueError` on it), `invalid` is non-empty text `int`
rejects, `num n` is text that parses as the integer `n`. -/

/-- A raw odometer form field before `int(...)` parsing. -/
inductive RawInput
  | empty
  | invalid
  | num (n : Int)
deriving DecidableEq, Repr

/-- The strict parse `try: int(x) except (TypeError, ValueError): reject` used
by `user_return_car` and the fuel-refill views. -/
def parseOdometer : RawInput → Option Int
  | RawInput.num n => some n
  | _ => none

/-- The lenient parse `int(x) if x else None` with the exception swallowed into `None` — the
parse used by `admin_booking_edit` (views.py:1223-1239): an empty or
non-numeric value silently becomes `None`. -/
def parseOdometerLenient : RawInput → Option Int
  | RawInput.num n => some n
  | _ => none

/-- The normalised `has_fuel` form field of the `return` action
(`(request.POST.get("has_fuel") or "").strip().upper()` checked against
`["YES", "NO"]`). -/
inductive HasFuelChoice
  | yes
  | no
  | other
deriving DecidableEq, Repr

/-- The `start_use` branch of `user_return_car` (views.py:535-558): requires
status BOOKED, parses `odometer_before`, records it, moves the booking to
IN_USE, and advances the car resting odometer to
`max(current_odometer or 0, odo_before)` (for an integer column `x or 0`
equals `x` except that it maps 0 to 0, i.e. it is the identity). -/
def start_use (b : Booking) (car : Car) (odoIn : RawInput) :
    Option (Booking × Car) :=
  if b.status ≠ BStatus.BOOKED then none
  else
    match parseOdometer odoIn with
    | none => none
    | some n =>
      some ({ b with odometer_before := some n, status := BStatus.IN_USE },
            { car with current_odometer := max car.current_odometer n })

/-- The `return` branch of `user_return_car` (views.py:560-616): requires
status IN_USE, parses `odometer_after`, rejects it when it is below a
recorded `odometer_before`, requires `has_fuel` to be YES or NO; NO
finishes the booking (RETURNED, car odometer advanced), YES parks it in
PENDING_RETURN (car untouched).  Both stamp `returned_by`. -/
def return_car (b : Booking) (car : Car) (odoIn : RawInput)
    (hasFuel : HasFuelChoice) (uid : Nat) : Option (Booking × Car) :=
  if b.status ≠ BStatus.IN_USE then none
  else
    match parseOdometer odoIn with
    | none => none
    | some n =>
      if (match b.odometer_before with
          | some bef => decide (n < bef)
          | none => false) then none
      else
        match hasFuel with
        | HasFuelChoice.other => none
        | HasFuelChoice.no =>
          some ({ b with
                  odometer_after := some n
                  status := BStatus.RETURNED
                  returned_by := some uid },
                { car with current_odometer := max car.current_odometer n })
        | HasFuelChoice.yes =>
          some ({ b with
                  odometer_after := some n
                  status := BStatus.PENDING_RETURN
                  returned_by := some uid },
                car)

/-- Embeds `FuelRefill.objects.filter(booking=booking)`: the refills attached to a
booking. -/
def attachedRefills (refills : List FuelRefill) (b : Booking) : List FuelRefill :=
  refills.filter (fun r => r.bookingId == some b.id)

/-- Embeds `user_confirm_return` (views.py:777-806): requires status
PENDING_RETURN; rejects when no fuel refill is attached; otherwise sets the
booking RETURNED and — only when `odometer_after` is recorded — advances
the car resting odometer and resets the car status to READY (the source
guards the whole car update with
`if booking.car and booking.odometer_after is not None`; the car foreign
key is non-null, so the guard is the `odometer_after` test). -/
def confirm_return (b : Booking) (car : Car) (refills : List FuelRefill) :
    Option (Booking × Car) :=
  if b.status ≠ BStatus.PENDING_RETURN then none
  else if attachedRefills refills b = [] then none
  else
    match b.odometer_after with
    | some aft =>
      some ({ b with status := BStatus.RETURNED },
            { car with
              current_odometer := max car.current_odometer aft
              status := CarStatus.READY })
    | none => some ({ b with status := BStatus.RETURNED }, car)

/-- Embeds `user_cancel_booking` (views.py:455-489): only a BOOKED booking can be
cancelled; cancellation is a status change, nothing else. -/
def cancel_booking (b : Booking) (car : Car) : Option (Booking × Car) :=
  if b.status ≠ BStatus.BOOKED then none
  else some ({ b with status := BStatus.CANCELLED }, car)

/-- One lifecycle request with its form payload. -/
inductive LifecycleAction
  | startUse (odoIn : RawInput)
  | returnCar (odoIn : RawInput) (hasFuel : HasFuelChoice) (uid : Nat)
  | confirmReturn (refills : List FuelRefill)
  | cancel
deriving Repr

/-- Dispatch one lifecycle request against the booking and its car;
`none` is a rejection, which in the source returns before any `save()`. -/
def applyAction (b : Booking) (car : Car) : LifecycleAction → Option (Booking × Car)
  | LifecycleAction.startUse odoIn => start_use b car odoIn
  | LifecycleAction.returnCar odoIn hf uid => return_car b car odoIn hf uid
  | LifecycleAction.confirmReturn refills => confirm_return b car refills
  | LifecycleAction.cancel => cancel_booking b car

/-- The source status each action demands before doing anything. -/
def requiredStatus : LifecycleAction → BStatus
  | LifecycleAction.startUse _ => BStatus.BOOKED
  | LifecycleAction.returnCar .. => BStatus.IN_USE
  | LifecycleAction.confirmReturn _ => BStatus.PENDING_RETURN
  | LifecycleAction.cancel => BStatus.BOOKED

/-- The persisted state after a request: a rejected request leaves the
rows as they were. -/
def stepAction (s : Booking × Car) (a : LifecycleAction) : Booking × Car :=
  (applyAction s.1 s.2 a).getD s

/-- A sequence of lifecycle requests against one booking and its car. -/
def runActions (s : Booking × Car) : List LifecycleAction → Booking × Car
  | [] => s
  | a :: rest => runActions (stepAction s a) rest

/-! ## Other odometer-accepting operations (`booking/views.py`) -/

/-- The `user_fuel_refill` POST branch (views.py:672-746): validates the car
choice, place, ยพ. number, a non-empty numeric odometer and the three
decimal fields, then creates the refill row.  Decimal fields arrive here
already passed through `_to_decimal` (`none` when absent or malformed);
their values are not stored in the embedded row because no property reads
them.  `today` substitutes for `timezone.localdate()` when the date is
absent. -/
def user_fuel_refill_create (nextId : Nat) (bookingId : Option Nat)
    (carChoice : Option Nat) (ypIn placeIn : String) (dateIn : Option Int)
    (today : Int) (odoIn : RawInput) (pricePerLiter liters totalPrice : Option Int) :
    Option FuelRefill :=
  let d := dateIn.getD today
  match carChoice with
  | none => none
  | some cid =>
    if placeIn = "" then none
    else if ypIn = "" then none
    else
      match odoIn with
      | RawInput.empty => none
      | RawInput.invalid => none
      | RawInput.num n =>
        if pricePerLiter = none then none
        else if liters = none then none
        else if totalPrice = none then none
        else
          some { id := nextId
                 carId := cid
                 bookingId := bookingId
                 refill_date := d
                 odometer := n
                 yp_number := ypIn }

/-- The `admin_fuel_refill_edit` POST branch (views.py:1544-1567): a
non-numeric or empty odometer is rejected (redirect before `save()`), as
is an empty place or ยพ. number; otherwise the row is updated.  A missing
date keeps the stored one. -/
def admin_fuel_refill_edit (r : FuelRefill) (dateIn : Option Int)
    (placeIn ypIn : String) (odoIn : RawInput) : Option FuelRefill :=
  match parseOdometer odoIn with
  | none => none
  | some n =>
    if placeIn = "" then none
    else if ypIn = "" then none
    else
      some { r with
             refill_date := dateIn.getD r.refill_date
             odometer := n
             yp_number := ypIn }

/-- The `admin_booking_edit` POST branch (views.py:1199-1241): it updates the
row unconditionally — there is no rejection path.  The odometer fields go
through `int(x) if x else None` with exceptions swallowed
(`parseOdometerLenient`), so empty or non-numeric input silently becomes
null.  `returned_by` keeps only an all-digit id.  Dates are taken already
parsed (the view would store a null date and fail at the database layer on
malformed dates; that path is outside the odometer properties stated
here). -/
def admin_booking_edit (b : Booking) (carChoice : Option Nat)
    (startIn endIn : Int) (returnedByIn : Option Nat)
    (odoBeforeIn odoAfterIn : RawInput) : Booking :=
  { b with
    carId := carChoice.getD b.carId
    start_date := startIn
    end_date := endIn
    returned_by := returnedByIn
    odometer_before := parseOdometerLenient odoBeforeIn
    odometer_after := parseOdometerLenient odoAfterIn }

/-! ## Fixtures for the concrete scenarios of the specification -/

/-- The spec example booking: `[2025-12-10, 2025-12-12]`, status BOOKED. -/
def exampleBooking : Booking :=
  { id := 1
    carId := 1
    start_date := 20251210
    end_date := 20251212
    odometer_before := none
    odometer_after := none
    status := BStatus.BOOKED
    returned_by := none }

/-- Audit scenario booking: `odometer_before = 20000`,
`odometer_after = None`, inside December 2025. -/
def bkMissingAfter : Booking :=
  { id := 7
    carId := 1
    start_date := 20251205
    end_date := 20251206
    odometer_before := some 20000
    odometer_after := none
    status := BStatus.RETURNED
    returned_by := none }

/-- The store of the missing-after audit scenario. -/
def dbMissingAfter : DB := { bookings := [bkMissingAfter], fuels := [] }

/-- Audit gap scenario, trip A: ends at odometer 20450 on 2025-12-05. -/
def bkGapA : Booking :=
  { id := 1
    carId := 1
    start_date := 20251203
    end_date := 20251205
    odometer_before := some 20000
    odometer_after := some 20450
    status := BStatus.RETURNED
    returned_by := none }

/-- Audit gap scenario, trip B: starts at odometer 20700 on 2025-12-07. -/
def bkGapB : Booking :=
  { id := 2
    carId := 1
    start_date := 20251207
    end_date := 20251208
    odometer_before := some 20700
    odometer_after := some 20800
    status := BStatus.RETURNED
    returned_by := none }

/-- The store of the gap audit scenario. -/
def dbGap : DB := { bookings := [bkGapA, bkGapB], fuels := [] }

/-- Audit fuel scenario booking: `odometer_before = 20200`. -/
def bkFuelTrip : Booking :=
  { id := 3
    carId := 1
    start_date := 20251210
    end_date := 20251211
    odometer_before := some 20200
    odometer_after := some 20300
    status := BStatus.RETURNED
    returned_by := none }

/-- Audit fuel scenario refill: odometer 20100, dated within the month,
attached to `bkFuelTrip`. -/
def rfFuel : FuelRefill :=
  { id := 9
    carId := 1
    bookingId := some 3
    refill_date := 20251211
    odometer := 20100
    yp_number := "YP-9" }

/-- The store of the fuel audit scenario. -/
def dbFuel : DB := { bookings := [bkFuelTrip], fuels := [rfFuel] }

/-! ## C1 — overlap / admission check -/

/-- C1: for every vehicle and every inclusive range `[s, e]` with `s <= e`,
the admission check reports a conflict iff some booking on that vehicle
with status BOOKED or IN_USE satisfies `start <= e` and `end >= s`;
RETURNED, CANCELLED and PENDING_RETURN never block; the busy-car set of
`api_available_cars` agrees with the admission check; and on the spec
example (BOOKED booking 2025-12-10..2025-12-12) the range
2025-12-12..2025-12-14 conflicts while 2025-12-13..2025-12-14 does not. -/
theorem C1_overlap_check (bs : List Booking) (v : Nat) (s e : Int)
    (_h : s ≤ e) :
    (hasConflict bs v s e = true ↔
      ∃ b ∈ bs, b.carId = v
        ∧ (b.status = BStatus.BOOKED ∨ b.status = BStatus.IN_USE)
        ∧ b.start_date ≤ e ∧ s ≤ b.end_date)
    ∧ (v ∈ busyCarIds bs s e ↔ hasConflict bs v s e = true)
    ∧ hasConflict [exampleBooking] 1 20251212 20251214 = true
    ∧ hasConflict [exampleBooking] 1 20251213 20251214 = false := by
  refine ⟨?_, ?_, by decide, by decide⟩
  · simp only [hasConflict, List.any_eq_true, blocksRange, Bool.and_eq_true,
      Bool.or_eq_true, beq_iff_eq, decide_eq_true_eq]
    aesop
  · simp only [busyCarIds, hasConflict, List.mem_dedup, List.mem_map,
      List.mem_filter, activeOverlap, List.any_eq_true, blocksRange,
      Bool.and_eq_true, Bool.or_eq_true, beq_iff_eq, decide_eq_true_eq]
    aesop

/-- Witness for C1 at a concrete input. -/
theorem C1_overlap_check_witness :
    hasConflict [exampleBooking] 1 20251212 20251214 = true :=
  (C1_overlap_check [exampleBooking] 1 20251212 20251214 (by decide)).2.2.1

/-! ## C2 — audit: missing / reversed odometer readings

The claim describes what `audit_car_month` emits per overlapping booking,
and in particular that the December-2025 store holding only
`bkMissingAfter` (odometer-before 20000, odometer-after absent) yields
exactly one issue, of type `missing_after`.  The code cannot do that: the
`missing_after` message formats `b.yp_number`, a field the `Booking` model
does not have, so the call raises `AttributeError` instead of returning any
issue list.  The intended issue logic (messages elided) does emit exactly
the claimed record. -/

/-- C2: on the claimed scenario the real `audit_car_month` raises
`AttributeError` (it never returns an issue list), while its issue-record
logic without the crashing message formatting emits exactly one
`missing_after` issue for the booking. -/
theorem C2_audit_missing_after :
    audit_car_month dbMissingAfter 1 20251201 20251231 200
        = Except.error "AttributeError: Booking has no field yp_number"
    ∧ auditIssuesIntended dbMissingAfter 1 20251201 20251231 200
        = [{ type := IssueType.missing_after, car_id := 1,
             booking_id := some 7, fuel_id := none }] := by
  constructor <;> rfl

/-! ## C3 — audit: odometer gaps between adjacent trips -/

/-- C3: on the claimed scenario (trip A ending at 20450, trip B starting at
20700, threshold 200, gap 250) the real `audit_car_month` raises
`AttributeError` — the `gap_between_trips` message formats `a.yp_number`
and `b.yp_number`, fields `Booking` does not have — instead of returning
the one-issue list; the issue-record logic without the message formatting
emits exactly one `gap_between_trips` issue referencing trip B, and on any
ordered trip list it emits per adjacent pair with both readings present:
`gap_negative` when `gap < 0`, `gap_between_trips` when `gap > threshold`,
and nothing when `0 <= gap <= threshold`. -/
theorem C3_audit_gap :
    (audit_car_month dbGap 1 20251201 20251231 200
        = Except.error "AttributeError: Booking has no field yp_number"
      ∧ auditIssuesIntended dbGap 1 20251201 20251231 200
        = [{ type := IssueType.gap_between_trips, car_id := 1,
             booking_id := some 2, fuel_id := none }])
    ∧ (∀ (carId : Nat) (thr : Int) (a b : Booking) (aft bef : Int),
        a.odometer_after = some aft → b.odometer_before = some bef →
          gapPairIssuesIntended carId thr a b =
            (if bef - aft < 0 then
              [{ type := IssueType.gap_negative, car_id := carId,
                 booking_id := some b.id, fuel_id := none }]
            else if bef - aft > thr then
              [{ type := IssueType.gap_between_trips, car_id := carId,
                 booking_id := some b.id, fuel_id := none }]
            else [])) := by
  refine ⟨⟨rfl, rfl⟩, ?_⟩
  intro carId thr a b aft bef ha hb
  simp [gapPairIssuesIntended, ha, hb]

/-- Witness for the conditional part of C3 at a concrete pair. -/
theorem C3_audit_gap_witness :
    gapPairIssuesIntended 1 200 bkGapA bkGapB =
      [{ type := IssueType.gap_between_trips, car_id := 1,
         booking_id := some 2, fuel_id := none }] := by
  have h := C3_audit_gap.2 1 200 bkGapA bkGapB 20450 20700 rfl rfl
  simpa using h

/-! ## C4 — audit: fuel refills against their attached trip -/

/-- C4: on the claimed scenario (refill at odometer 20100 attached to a
booking with odometer-before 20200) the real `audit_car_month` raises
`AttributeError` — the `fuel_odometer_outside_trip` message formats
`bk.yp_number`, a field `Booking` does not have — instead of returning the
one-issue list; the issue-record logic without the message formatting
emits exactly that issue, and per refill it emits the below-before and
above-after checks independently when the respective bound is present, and
`fuel_without_booking` exactly when no booking is attached. -/
theorem C4_audit_fuel :
    (audit_car_month dbFuel 1 20251201 20251231 200
        = Except.error "AttributeError: Booking has no field yp_number"
      ∧ auditIssuesIntended dbFuel 1 20251201 20251231 200
        = [{ type := IssueType.fuel_odometer_outside_trip, car_id := 1,
             booking_id := some 3, fuel_id := some 9 }])
    ∧ (∀ (carId : Nat) (bookings : List Booking) (f : FuelRefill) (bid : Nat)
        (bk : Booking), f.bookingId = some bid →
          bookings.find? (fun b => b.id == bid) = some bk →
          fuelIssuesIntended carId bookings f =
            (match bk.odometer_before with
              | some bef =>
                if f.odometer < bef then
                  [{ type := IssueType.fuel_odometer_outside_trip,
                     car_id := carId, booking_id := some bk.id,
                     fuel_id := some f.id }]
                else []
              | none => [])
            ++ (match bk.odometer_after with
              | some aft =>
                if f.odometer > aft then
                  [{ type := IssueType.fuel_odometer_outside_trip,
                     car_id := carId, booking_id := some bk.id,
                     fuel_id := some f.id }]
                else []
              | none => []))
    ∧ (∀ (carId : Nat) (bookings : List Booking) (f : FuelRefill),
        f.bookingId = none →
          fuelIssuesIntended carId bookings f =
            [{ type := IssueType.fuel_without_booking, car_id := carId,
               booking_id := none, fuel_id := some f.id }]) := by
  refine ⟨⟨rfl, rfl⟩, ?_, ?_⟩
  · intro carId bookings f bid bk hf hfind
    simp [fuelIssuesIntended, hf, hfind]
  · intro carId bookings f hf
    simp [fuelIssuesIntended, hf]

/-- Witness for the conditional parts of C4 at concrete inputs. -/
theorem C4_audit_fuel_witness :
    fuelIssuesIntended 1 [bkFuelTrip] rfFuel =
      [{ type := IssueType.fuel_odometer_outside_trip, car_id := 1,
         booking_id := some 3, fuel_id := some 9 }] := by
  have h := C4_audit_fuel.2.1 1 [bkFuelTrip] rfFuel 3 bkFuelTrip rfl rfl
  simpa using h

/-! ## C5 — confirm-return

The claim asserts that a successful confirm-return always resets the
vehicle status to READY and advances its resting odometer.  The source
guards that whole car update with
`if booking.car and booking.odometer_after is not None` (views.py:798), so
for a PENDING_RETURN booking whose `odometer_after` is null (reachable:
`admin_booking_edit` nulls the field on empty or non-numeric input without
touching the status) confirm-return succeeds but leaves the car exactly as
it was.  The counterexample exhibits this; the amended statement adds the
`odometer_after`-recorded proviso. -/

/-- A PENDING_RETURN booking with no recorded `odometer_after`. -/
def bkPendingNoAfter : Booking :=
  { id := 21
    carId := 5
    start_date := 20251201
    end_date := 20251202
    odometer_before := some 100
    odometer_after := none
    status := BStatus.PENDING_RETURN
    returned_by := some 2 }

/-- A car that is not READY (in maintenance) with some resting odometer. -/
def carInMaintenance : Car :=
  { id := 5
    current_odometer := 90
    status := CarStatus.MAINTENANCE }

/-- A refill attached to `bkPendingNoAfter`. -/
def rfAttached : FuelRefill :=
  { id := 31
    carId := 5
    bookingId := some 21
    refill_date := 20251202
    odometer := 150
    yp_number := "YP-31" }

/-- Counterexample to C5 as stated: with one refill attached,
confirm-return on `bkPendingNoAfter` succeeds and sets the booking
RETURNED, yet the vehicle keeps status MAINTENANCE (not READY) and its
odometer is not advanced — the car row is returned untouched. -/
theorem C5_counterexample :
    confirm_return bkPendingNoAfter carInMaintenance [rfAttached]
      = some ({ bkPendingNoAfter with status := BStatus.RETURNED },
              carInMaintenance)
    ∧ carInMaintenance.status ≠ CarStatus.READY := by
  constructor
  · rfl
  · decide

/-- C5 (amended): for every PENDING_RETURN booking, confirm-return is
rejected, mutating nothing, when no fuel refill is attached; with at least
one attached refill it succeeds and the booking becomes RETURNED, and —
provided the booking has a recorded `odometer_after` — the vehicle status
is reset to READY and its resting odometer advanced to
`max(current, odometer_after)`, hence to at least `odometer_after`; with no
recorded `odometer_after` the vehicle row is left untouched. -/
theorem C5_confirm_return (b : Booking) (car : Car)
    (refills : List FuelRefill) (h : b.status = BStatus.PENDING_RETURN) :
    (attachedRefills refills b = [] → confirm_return b car refills = none)
    ∧ (attachedRefills refills b ≠ [] →
        ∃ b2 car2, confirm_return b car refills = some (b2, car2)
          ∧ b2.status = BStatus.RETURNED
          ∧ (∀ aft, b.odometer_after = some aft →
              car2.status = CarStatus.READY
              ∧ car2.current_odometer = max car.current_odometer aft
              ∧ aft ≤ car2.current_odometer)
          ∧ (b.odometer_after = none → car2 = car)) := by
  constructor
  · intro hempty
    simp [confirm_return, h, hempty]
  · intro hne
    cases haft : b.odometer_after with
    | some aft =>
      refine ⟨{ b with status := BStatus.RETURNED },
        { car with
          current_odometer := max car.current_odometer aft
          status := CarStatus.READY }, ?_, rfl, ?_, ?_⟩
      · simp [confirm_return, h, hne, haft]
      · intro a ha
        cases ha
        exact ⟨rfl, rfl, le_max_right _ _⟩
      · intro hnone
        cases hnone
    | none =>
      refine ⟨{ b with status := BStatus.RETURNED }, car, ?_, rfl, ?_, ?_⟩
      · simp [confirm_return, h, hne, haft]
      · intro a ha
        cases ha
      · intro _
        rfl

/-- Witness for C5 at a concrete input: a PENDING_RETURN booking with a
recorded `odometer_after` and one attached refill. -/
theorem C5_confirm_return_witness :
    ∃ b2 car2,
      confirm_return { bkPendingNoAfter with odometer_after := some 150 }
          carInMaintenance [rfAttached] = some (b2, car2)
        ∧ b2.status = BStatus.RETURNED
        ∧ (∀ aft,
            ({ bkPendingNoAfter with odometer_after := some 150 } : Booking).odometer_after = some aft →
              car2.status = CarStatus.READY
              ∧ car2.current_odometer = max carInMaintenance.current_odometer aft
              ∧ aft ≤ car2.current_odometer)
        ∧ (({ bkPendingNoAfter with odometer_after := some 150 } : Booking).odometer_after = none → car2 = carInMaintenance) :=
  (C5_confirm_return { bkPendingNoAfter with odometer_after := some 150 }
    carInMaintenance [rfAttached] rfl).2 (by decide)

/-! ## C6 — state preconditions of the lifecycle actions -/

/-- C6: every lifecycle action invoked on a booking whose status is not the
action's required source state is rejected, and neither the booking nor the
car row changes; in particular a second `start_use` on the same booking is
rejected, because the first one left it IN_USE. -/
theorem C6_state_preconditions (b : Booking) (car : Car)
    (a : LifecycleAction) (h : b.status ≠ requiredStatus a) :
    (applyAction b car a = none ∧ stepAction (b, car) a = (b, car))
    ∧ (∀ (b0 : Booking) (car0 : Car) (odo1 odo2 : RawInput)
        (b1 : Booking) (car1 : Car),
        start_use b0 car0 odo1 = some (b1, car1) →
          start_use b1 car1 odo2 = none) := by
  constructor
  · have hrej : applyAction b car a = none := by
      cases a with
      | startUse odo =>
        simp only [requiredStatus] at h
        simp [applyAction, start_use, h]
      | returnCar odo hf uid =>
        simp only [requiredStatus] at h
        simp [applyAction, return_car, h]
      | confirmReturn refills =>
        simp only [requiredStatus] at h
        simp [applyAction, confirm_return, h]
      | cancel =>
        simp only [requiredStatus] at h
        simp [applyAction, cancel_booking, h]
    exact ⟨hrej, by simp [stepAction, hrej]⟩
  · intro b0 car0 odo1 odo2 b1 car1 hsucc
    have hstat : b1.status = BStatus.IN_USE := by
      unfold start_use at hsucc
      split at hsucc
      · cases hsucc
      · split at hsucc
        · cases hsucc
        · cases hsucc
          rfl
    simp [start_use, hstat]

/-- Witness for C6: cancelling an IN_USE booking is rejected and mutates
nothing. -/
theorem C6_state_preconditions_witness :
    applyAction { exampleBooking with status := BStatus.IN_USE }
        carInMaintenance LifecycleAction.cancel = none
    ∧ stepAction ({ exampleBooking with status := BStatus.IN_USE },
        carInMaintenance) LifecycleAction.cancel
      = ({ exampleBooking with status := BStatus.IN_USE }, carInMaintenance) :=
  (C6_state_preconditions { exampleBooking with status := BStatus.IN_USE }
    carInMaintenance LifecycleAction.cancel (by decide)).1

/-! ## C7 — return requires odometer-after at least odometer-before -/

/-- C7: for an IN_USE booking with recorded odometer-before, both return
variants reject a submitted odometer-after below it (no mutation), and
every successful return stores the submitted integer as `odometer_after`,
which is at least `odometer_before`. -/
theorem C7_return_odometer (b : Booking) (car : Car) (uid : Nat) (bef : Int)
    (h : b.status = BStatus.IN_USE) (hbef : b.odometer_before = some bef) :
    (∀ (raw : RawInput) (n : Int) (hf : HasFuelChoice),
        parseOdometer raw = some n → n < bef →
          return_car b car raw hf uid = none
          ∧ stepAction (b, car) (LifecycleAction.returnCar raw hf uid) = (b, car))
    ∧ (∀ (raw : RawInput) (hf : HasFuelChoice) (b2 : Booking) (car2 : Car),
        return_car b car raw hf uid = some (b2, car2) →
          ∃ n, parseOdometer raw = some n ∧ b2.odometer_after = some n
            ∧ bef ≤ n) := by
  constructor
  · intro raw n hf hparse hlt
    have hrej : return_car b car raw hf uid = none := by
      simp [return_car, h, hparse, hbef, hlt]
    exact ⟨hrej, by simp [stepAction, applyAction, hrej]⟩
  · intro raw hf b2 car2 hsucc
    cases raw with
    | empty => simp [return_car, h, parseOdometer] at hsucc
    | invalid => simp [return_car, h, parseOdometer] at hsucc
    | num n =>
      refine ⟨n, rfl, ?_⟩
      simp only [return_car, h, ne_eq, not_true_eq_false, if_false,
        parseOdometer, hbef] at hsucc
      split at hsucc
      · cases hsucc
      · rename_i hnotlt
        cases hf with
        | other => cases hsucc
        | no =>
          cases hsucc
          refine ⟨rfl, ?_⟩
          simpa using le_of_not_lt (by simpa using hnotlt)
        | yes =>
          cases hsucc
          refine ⟨rfl, ?_⟩
          simpa using le_of_not_lt (by simpa using hnotlt)

/-- Witness for C7: returning at an odometer below the recorded
odometer-before is rejected. -/
theorem C7_return_odometer_witness :
    return_car { exampleBooking with
        status := BStatus.IN_USE
        odometer_before := some 500 }
      carInMaintenance (RawInput.num 400) HasFuelChoice.no 2 = none
    ∧ stepAction ({ exampleBooking with
          status := BStatus.IN_USE
          odometer_before := some 500 }, carInMaintenance)
        (LifecycleAction.returnCar (RawInput.num 400) HasFuelChoice.no 2)
      = ({ exampleBooking with
          status := BStatus.IN_USE
          odometer_before := some 500 }, carInMaintenance) :=
  (C7_return_odometer { exampleBooking with
      status := BStatus.IN_USE
      odometer_before := some 500 }
    carInMaintenance 2 500 rfl rfl).1 (RawInput.num 400) 400
    HasFuelChoice.no rfl (by decide)

/-! ## C8 — odometer input parsing

`user_return_car`, `user_fuel_refill` and `admin_fuel_refill_edit` wrap
`int(...)` in `try/except` and reject on failure.  `admin_booking_edit`
does not: its `except` branches assign `None` and the edit saves anyway
(views.py:1223-1241), so a non-numeric odometer is silently stored as null
rather than rejected. -/

/-- An admin-edited booking with both odometer readings recorded. -/
def bkAdminEdit : Booking :=
  { id := 40
    carId := 2
    start_date := 20251210
    end_date := 20251212
    odometer_before := some 300
    odometer_after := some 400
    status := BStatus.RETURNED
    returned_by := some 4 }

/-- Counterexample to C8 as stated: `admin_booking_edit` fed a non-numeric
odometer is not rejected — it saves the row, nulling both readings, so the
booking is mutated and the stored value is not an integer parsed from the
input. -/
theorem C8_counterexample :
    (admin_booking_edit bkAdminEdit none 20251210 20251212 (some 4)
        RawInput.invalid RawInput.invalid).odometer_before = none
    ∧ admin_booking_edit bkAdminEdit none 20251210 20251212 (some 4)
        RawInput.invalid RawInput.invalid ≠ bkAdminEdit := by
  constructor
  · rfl
  · decide

/-- C8 (amended): start-use, both return variants, fuel-refill create and
fuel-refill edit reject an empty or non-numeric odometer with no mutation,
and on success they store exactly the parsed integer; `admin_booking_edit`
alone never rejects an odometer input — empty or non-numeric values are
silently coerced to null. -/
theorem C8_odometer_inputs :
    (∀ (b : Booking) (car : Car),
        start_use b car RawInput.invalid = none
        ∧ start_use b car RawInput.empty = none)
    ∧ (∀ (b : Booking) (car : Car) (hf : HasFuelChoice) (uid : Nat),
        return_car b car RawInput.invalid hf uid = none
        ∧ return_car b car RawInput.empty hf uid = none)
    ∧ (∀ (nextId : Nat) (bookingId carChoice : Option Nat) (yp place : String)
        (dateIn : Option Int) (today : Int) (ppl lit tot : Option Int),
        user_fuel_refill_create nextId bookingId carChoice yp place dateIn
            today RawInput.invalid ppl lit tot = none
        ∧ user_fuel_refill_create nextId bookingId carChoice yp place dateIn
            today RawInput.empty ppl lit tot = none)
    ∧ (∀ (r : FuelRefill) (dateIn : Option Int) (place yp : String),
        admin_fuel_refill_edit r dateIn place yp RawInput.invalid = none
        ∧ admin_fuel_refill_edit r dateIn place yp RawInput.empty = none)
    ∧ (∀ (b : Booking) (carChoice : Option Nat) (sIn eIn : Int)
        (rb : Option Nat) (odoA : RawInput),
        (admin_booking_edit b carChoice sIn eIn rb RawInput.invalid odoA).odometer_before = none
        ∧ (admin_booking_edit b carChoice sIn eIn rb odoA RawInput.invalid).odometer_after = none)
    ∧ (∀ (b : Booking) (car : Car) (n : Int) (b2 : Booking) (car2 : Car),
        start_use b car (RawInput.num n) = some (b2, car2) →
          b2.odometer_before = some n)
    ∧ (∀ (b : Booking) (car : Car) (n : Int) (hf : HasFuelChoice) (uid : Nat)
        (b2 : Booking) (car2 : Car),
        return_car b car (RawInput.num n) hf uid = some (b2, car2) →
          b2.odometer_after = some n)
    ∧ (∀ (nextId : Nat) (bookingId carChoice : Option Nat) (yp place : String)
        (dateIn : Option Int) (today : Int) (n : Int) (ppl lit tot : Option Int)
        (r : FuelRefill),
        user_fuel_refill_create nextId bookingId carChoice yp place dateIn
            today (RawInput.num n) ppl lit tot = some r → r.odometer = n)
    ∧ (∀ (r : FuelRefill) (dateIn : Option Int) (place yp : String) (n : Int)
        (r2 : FuelRefill),
        admin_fuel_refill_edit r dateIn place yp (RawInput.num n) = some r2 →
          r2.odometer = n) := by
  refine ⟨?_, ?_, ?_, ?_, ?_, ?_, ?_, ?_, ?_⟩
  · intro b car
    constructor <;> simp [start_use, parseOdometer]
  · intro b car hf uid
    constructor <;> simp [return_car, parseOdometer]
  · intro nextId bookingId carChoice yp place dateIn today ppl lit tot
    constructor <;> cases carChoice <;> simp [user_fuel_refill_create]
  · intro r dateIn place yp
    constructor <;> simp [admin_fuel_refill_edit, parseOdometer]
  · intro b carChoice sIn eIn rb odoA
    constructor <;> simp [admin_booking_edit, parseOdometerLenient]
  · intro b car n b2 car2 hsucc
    simp only [start_use, parseOdometer] at hsucc
    split at hsucc
    · cases hsucc
    · cases hsucc
      rfl
  · intro b car n hf uid b2 car2 hsucc
    simp only [return_car, parseOdometer] at hsucc
    split at hsucc
    · cases hsucc
    · split at hsucc
      · cases hsucc
      · cases hf with
        | other => cases hsucc
        | no =>
          cases hsucc
          rfl
        | yes =>
          cases hsucc
          rfl
  · intro nextId bookingId carChoice yp place dateIn today n ppl lit tot r hsucc
    cases carChoice with
    | none => cases hsucc
    | some cid =>
      simp only [user_fuel_refill_create] at hsucc
      split at hsucc
      · cases hsucc
      · split at hsucc
        · cases hsucc
        · split at hsucc
          · cases hsucc
          · split at hsucc
            · cases hsucc
            · split at hsucc
              · cases hsucc
              · cases hsucc
                rfl
  · intro r dateIn place yp n r2 hsucc
    simp only [admin_fuel_refill_edit, parseOdometer] at hsucc
    split at hsucc
    · cases hsucc
    · split at hsucc
      · cases hsucc
      · cases hsucc
        rfl

/-- Witness for the success conjuncts of C8: starting use at odometer 5
stores the integer 5. -/
theorem C8_odometer_inputs_witness :
    start_use exampleBooking carInMaintenance (RawInput.num 5)
      = some ({ exampleBooking with
                odometer_before := some 5
                status := BStatus.IN_USE },
              { carInMaintenance with current_odometer := 90 })
    ∧ ({ exampleBooking with
         odometer_before := some 5
         status := BStatus.IN_USE } : Booking).odometer_before = some 5 :=
  ⟨rfl, C8_odometer_inputs.2.2.2.2.2.1 exampleBooking carInMaintenance 5
    { exampleBooking with
      odometer_before := some 5
      status := BStatus.IN_USE }
    { carInMaintenance with current_odometer := 90 } rfl⟩

/-! ## C9 — the car resting odometer never decreases -/

/-- Any accepted lifecycle action leaves the car's resting odometer at or
above its previous value (the mutating actions write
`max(current_odometer, reading)`, the others do not touch the car). -/
theorem applyActionOdoMono (b : Booking) (car : Car) (a : LifecycleAction)
    (b2 : Booking) (car2 : Car)
    (hsucc : applyAction b car a = some (b2, car2)) :
    car.current_odometer ≤ car2.current_odometer := by
  cases a with
  | startUse odo =>
    simp only [applyAction, start_use] at hsucc
    split at hsucc
    · cases hsucc
    · split at hsucc
      · cases hsucc
      · cases hsucc
        exact le_max_left _ _
  | returnCar odo hf uid =>
    simp only [applyAction, return_car] at hsucc
    split at hsucc
    · cases hsucc
    · split at hsucc
      · cases hsucc
      · split at hsucc
        · cases hsucc
        · split at hsucc
          · cases hsucc
          · cases hsucc
            exact le_max_left _ _
          · cases hsucc
            exact le_refl _
  | confirmReturn refills =>
    simp only [applyAction, confirm_return] at hsucc
    split at hsucc
    · cases hsucc
    · split at hsucc
      · cases hsucc
      · split at hsucc
        · cases hsucc
          exact le_max_left _ _
        · cases hsucc
          exact le_refl _
  | cancel =>
    simp only [applyAction, cancel_booking] at hsucc
    split at hsucc
    · cases hsucc
    · cases hsucc
      exact le_refl _

/-- C9: the car resting odometer is monotonically non-decreasing — after
any single lifecycle request and after any sequence of them it is at least
its previous value — and each of start-use, return-without-fuel and
confirm-return (with a recorded `odometer_after`) sets it to
`max(current, reading)`. -/
theorem C9_odometer_monotone :
    (∀ (b : Booking) (car : Car) (a : LifecycleAction),
        car.current_odometer ≤ (stepAction (b, car) a).2.current_odometer)
    ∧ (∀ (s : Booking × Car) (l : List LifecycleAction),
        s.2.current_odometer ≤ (runActions s l).2.current_odometer)
    ∧ (∀ (b : Booking) (car : Car) (n : Int) (b2 : Booking) (car2 : Car),
        start_use b car (RawInput.num n) = some (b2, car2) →
          car2.current_odometer = max car.current_odometer n)
    ∧ (∀ (b : Booking) (car : Car) (n : Int) (uid : Nat) (b2 : Booking)
        (car2 : Car),
        return_car b car (RawInput.num n) HasFuelChoice.no uid = some (b2, car2) →
          car2.current_odometer = max car.current_odometer n)
    ∧ (∀ (b : Booking) (car : Car) (refills : List FuelRefill) (aft : Int)
        (b2 : Booking) (car2 : Car), b.odometer_after = some aft →
        confirm_return b car refills = some (b2, car2) →
          car2.current_odometer = max car.current_odometer aft) := by
  have hstep : ∀ (s : Booking × Car) (a : LifecycleAction),
      s.2.current_odometer ≤ (stepAction s a).2.current_odometer := by
    intro s a
    obtain ⟨b, car⟩ := s
    cases hres : applyAction b car a with
    | none => simp [stepAction, hres]
    | some p =>
      obtain ⟨b2, car2⟩ := p
      simpa [stepAction, hres] using applyActionOdoMono b car a b2 car2 hres
  refine ⟨fun b car a => hstep (b, car) a, ?_, ?_, ?_, ?_⟩
  · intro s l
    induction l generalizing s with
    | nil => exact le_refl _
    | cons a rest ih =>
      exact le_trans (hstep s a) (ih (stepAction s a))
  · intro b car n b2 car2 hsucc
    simp only [start_use, parseOdometer] at hsucc
    split at hsucc
    · cases hsucc
    · cases hsucc
      rfl
  · intro b car n uid b2 car2 hsucc
    simp only [return_car, parseOdometer] at hsucc
    split at hsucc
    · cases hsucc
    · split at hsucc
      · cases hsucc
      · cases hsucc
        rfl
  · intro b car refills aft b2 car2 haft hsucc
    simp only [confirm_return, haft] at hsucc
    split at hsucc
    · cases hsucc
    · split at hsucc
      · cases hsucc
      · cases hsucc
        rfl

/-- Witness for the conditional conjuncts of C9 at a concrete start-use. -/
theorem C9_odometer_monotone_witness :
    ({ carInMaintenance with current_odometer := 90 } : Car).current_odometer
      = max carInMaintenance.current_odometer 5 :=
  C9_odometer_monotone.2.2.1 exampleBooking carInMaintenance 5
    { exampleBooking with
      odometer_before := some 5
      status := BStatus.IN_USE }
    { carInMaintenance with current_odometer := 90 } rfl

/-! ## C10 — RETURNED and CANCELLED are terminal -/

/-- C10: from a RETURNED or CANCELLED booking every lifecycle action is
rejected, so under the lifecycle step relation the booking and its car
never change again — any sequence of further requests leaves the pair
exactly as it is (in particular the status is kept forever). -/
theorem C10_terminal_states (b : Booking) (car : Car)
    (h : b.status = BStatus.RETURNED ∨ b.status = BStatus.CANCELLED) :
    (∀ a, applyAction b car a = none)
    ∧ (∀ l, runActions (b, car) l = (b, car)) := by
  have hrej : ∀ a, applyAction b car a = none := by
    intro a
    cases a with
    | startUse odo =>
      rcases h with h | h <;> simp [applyAction, start_use, h]
    | returnCar odo hf uid =>
      rcases h with h | h <;> simp [applyAction, return_car, h]
    | confirmReturn refills =>
      rcases h with h | h <;> simp [applyAction, confirm_return, h]
    | cancel =>
      rcases h with h | h <;> simp [applyAction, cancel_booking, h]
  have hfix : ∀ a, stepAction (b, car) a = (b, car) := by
    intro a
    simp [stepAction, hrej a]
  refine ⟨hrej, ?_⟩
  intro l
  induction l with
  | nil => rfl
  | cons a rest ih => rw [runActions, hfix a, ih]

/-- Witness for C10: a RETURNED booking survives a cancel followed by a
start-use attempt unchanged. -/
theorem C10_terminal_states_witness :
    applyAction bkMissingAfter carInMaintenance LifecycleAction.cancel = none
    ∧ runActions (bkMissingAfter, carInMaintenance)
        [LifecycleAction.cancel, LifecycleAction.startUse (RawInput.num 7)]
      = (bkMissingAfter, carInMaintenance) :=
  ⟨(C10_terminal_states bkMissingAfter carInMaintenance (Or.inl rfl)).1
      LifecycleAction.cancel,
    (C10_terminal_states bkMissingAfter carInMaintenance (Or.inl rfl)).2
      [LifecycleAction.cancel, LifecycleAction.startUse (RawInput.num 7)]⟩
